import Mathlib

/-!
Shallow embedding of the slurm-rs library (src/lib.rs): the `Slurm` and
`SlurmDB` client handles, their internal request builders, the
environment-based constructors, the per-endpoint response handling, and
the serde JSON data model of the typed responses.

Machine integers (`i64`, `i32`) are modelled as `Int` (no arithmetic is
performed on them, so no overflow is involved).  The single `f64` field
(`Node.tres_weighted`) is modelled by `F64` below, which distinguishes
finite values (exactly round-tripped by serde_json via Ryu) from the
non-finite values that serde_json serializes as `null`.
-/

/-- JSON values as produced and consumed by serde_json.  Integer-typed
fields serialize to `num`; finite floating-point values serialize to
`fnum` (serde_json writes non-finite floats as `null`). -/
inductive Json where
  | null
  | bool (b : Bool)
  | num (n : Int)
  | fnum (q : Rat)
  | str (s : String)
  | arr (elems : List Json)
  | obj (fields : List (String × Json))

/-- Model of an `f64` value: either a finite value (identified with the
rational it denotes exactly) or one of the non-finite values. -/
inductive F64 where
  | finite (val : Rat)
  | nan
  | inf
  | neginf
deriving DecidableEq

/-- HTTP methods of `reqwest::Method` used through this library. -/
inductive Method where
  | GET
  | POST
  | PUT
  | DELETE
  | PATCH
  | HEAD
deriving DecidableEq

/-- Parsed URL as held by `reqwest::Url` for an http(s) endpoint: scheme,
host (with optional port), non-empty list of path segments (the segment
list `[""]` renders as the path `/`), and query pairs. -/
structure Url where
  scheme : String
  host : String
  segments : List String
  queryParams : List (String × String)
deriving DecidableEq

/-- Decidable equality for `Except` results, used to evaluate the model
on concrete inputs. -/
instance [DecidableEq ε] [DecidableEq α] : DecidableEq (Except ε α) := fun a b =>
  match a, b with
  | .ok x, .ok y => decidable_of_iff (x = y) (by simp)
  | .error e, .error f => decidable_of_iff (e = f) (by simp)
  | .ok _, .error _ => .isFalse (by simp)
  | .error _, .ok _ => .isFalse (by simp)

/-- Character-wise ASCII lowercasing, the effect of Rust
`str::to_lowercase` on the ASCII header-name constants it is applied
to. -/
def strToLower (s : String) : String := String.mk (s.data.map Char.toLower)

/-- Splitting of a character list on a separator, keeping empty groups,
as `str::split` does. -/
def splitChars (sep : Char) : List Char → List (List Char)
  | [] => [[]]
  | c :: rest =>
    match splitChars sep rest with
    | [] => [[]]
    | g :: gs => if c == sep then [] :: g :: gs else (c :: g) :: gs

/-- Splitting of a string on a separator character. -/
def splitOnChar (s : String) (sep : Char) : List String :=
  (splitChars sep s.data).map String.mk

/-- Rendering of the query pairs, empty when there are none. -/
def renderQuery : List (String × String) → String
  | [] => ""
  | qs => "?" ++ String.intercalate "&" (qs.map (fun kv => kv.fst ++ "=" ++ kv.snd))

/-- Serialization of a `Url` back to its string form. -/
def Url.toString (u : Url) : String :=
  u.scheme ++ "://" ++ u.host ++ "/" ++ String.intercalate "/" u.segments
    ++ renderQuery u.queryParams

/-- Model of `Url::join` for the relative references this library passes
to it: a path with no leading slash, no scheme and no dot segments (the
builders always pass `slurm/v0.0.38/<suffix>`).  Per RFC 3986 relative
resolution, the last segment of the base path is dropped, the segments of
the reference are appended, and the base query is discarded. -/
def Url.join (u : Url) (rel : String) : Url :=
  { u with segments := u.segments.dropLast ++ splitOnChar rel '/', queryParams := [] }

/-- Constant `SLURM_USER` from lib.rs line 11. -/
def SLURM_USER : String := "X-SLURM-USER-NAME"

/-- Constant `SLURM_TOKEN` from lib.rs line 12. -/
def SLURM_TOKEN : String := "X-SLURM-USER-TOKEN"

/-- Constant `SLURM_API_VERSION` from lib.rs line 13. -/
def SLURM_API_VERSION : String := "v0.0.38"

/-- Errors a request builder can return (`?` propagation in
`Slurm::request` / `SlurmDB::request`). -/
inductive ReqError where
  | invalidHeaderName
  | invalidHeaderValue
deriving DecidableEq

/-- Validity of one character of a header value, after the byte check of
`http::HeaderValue::from_str`: a byte is valid iff it is horizontal tab
or at least 32 and not 127.  Characters at code point 128 and above
encode in UTF-8 only as bytes of value at least 128, which are all
valid, so they satisfy the same arithmetic condition on the code point. -/
def isValidHeaderValueChar (c : Char) : Bool :=
  c.val == 9 || (32 ≤ c.val && c.val != 127)

/-- Model of `http::HeaderValue::from_str`: accepts the string iff every
character is valid as a header-value byte sequence. -/
def headerValueFromStr (s : String) : Except ReqError String :=
  if s.data.all isValidHeaderValueChar then .ok s else .error .invalidHeaderValue

/-- Validity of a character of a (lower-cased) header name: the token
characters accepted by `http::HeaderName::from_bytes`. -/
def isValidHeaderNameChar (c : Char) : Bool :=
  c.isLower || c.isDigit
    || c.val == 33 || c.val == 35 || c.val == 36 || c.val == 37 || c.val == 38
    || c.val == 39 || c.val == 42 || c.val == 43 || c.val == 45 || c.val == 46
    || c.val == 94 || c.val == 95 || c.val == 96 || c.val == 124 || c.val == 126

/-- Model of `http::HeaderName::from_bytes` on the lower-cased names this
library passes to it. -/
def headerNameFromBytes (s : String) : Except ReqError String :=
  if s.data.all isValidHeaderNameChar then .ok s else .error .invalidHeaderName

/-- Built HTTP request (`reqwest::Request`): method, URL (query pairs
appended), header list in append order, and the optional JSON body.  The
body is the serde_json serialization of the `body` argument, so it is
modelled directly as a `Json` value. -/
structure Request where
  method : Method
  url : Url
  headers : List (String × String)
  body : Option Json

/-- The `Slurm` client handle (lib.rs lines 17-22): user, token and
parsed endpoint.  The `Arc<Client>` transport handle carries no
request-building data and is outside the model. -/
structure Slurm where
  user : String
  token : String
  endpoint : Url

/-- The `SlurmDB` client handle (lib.rs lines 254-259). -/
structure SlurmDB where
  user : String
  token : String
  endpoint : Url

/-- Internal request builder `Slurm::request` (lib.rs lines 63-113):
joins `slurm/v0.0.38/<path>` onto the endpoint, builds the two auth
headers from the lower-cased constants and the client credentials, adds
`content-type: application/json`, appends the query pairs if present,
and attaches the JSON body only when the method is neither GET nor
DELETE. -/
def Slurm.request (c : Slurm) (method : Method) (path : String)
    (body : Json) (query : Option (List (String × String))) :
    Except ReqError Request := do
  let url_path := "slurm/" ++ SLURM_API_VERSION ++ "/" ++ path
  let url := c.endpoint.join url_path
  let user_header_name ← headerNameFromBytes (strToLower SLURM_USER)
  let user_header_val ← headerValueFromStr c.user
  let token_header_name ← headerNameFromBytes (strToLower SLURM_TOKEN)
  let token_header_val ← headerValueFromStr c.token
  let headers := [(user_header_name, user_header_val),
                  (token_header_name, token_header_val),
                  ("content-type", "application/json")]
  let url := match query with
    | none => url
    | some q => { url with queryParams := url.queryParams ++ q }
  let reqBody : Option Json :=
    if method != Method.GET && method != Method.DELETE then some body else none
  pure { method := method, url := url, headers := headers, body := reqBody }

/-- Internal request builder `SlurmDB::request` (lib.rs lines 299-350).
Note the source joins `slurm/...`, not `slurmdb/...`: the body is
line-for-line the same as `Slurm::request`. -/
def SlurmDB.request (c : SlurmDB) (method : Method) (path : String)
    (body : Json) (query : Option (List (String × String))) :
    Except ReqError Request := do
  let url_path := "slurm/" ++ SLURM_API_VERSION ++ "/" ++ path
  let url := c.endpoint.join url_path
  let user_header_name ← headerNameFromBytes (strToLower SLURM_USER)
  let user_header_val ← headerValueFromStr c.user
  let token_header_name ← headerNameFromBytes (strToLower SLURM_TOKEN)
  let token_header_val ← headerValueFromStr c.token
  let headers := [(user_header_name, user_header_val),
                  (token_header_name, token_header_val),
                  ("content-type", "application/json")]
  let url := match query with
    | none => url
    | some q => { url with queryParams := url.queryParams ++ q }
  let reqBody : Option Json :=
    if method != Method.GET && method != Method.DELETE then some body else none
  pure { method := method, url := url, headers := headers, body := reqBody }

/-- Environment-based constructor `Slurm::new_from_env` (lib.rs lines
51-60), with the environment passed explicitly.  Each `expect` becomes
an error result carrying the panic message; on success the `(user,
token, endpoint)` triple is what is passed on to `Slurm::new`. -/
def Slurm.new_from_env (env : String → Option String) :
    Except String (String × String × String) :=
  match env "X_SLURM_ENDPOINT" with
  | none => .error "env variable \x27X_SLURM_ENDPOINT\x27 should be set"
  | some endpoint =>
    match env "X_SLURM_USER_NAME" with
    | none => .error "env variable \x27X_SLURM_USER_NAME\x27 should be set"
    | some user =>
      match env "X_SLURM_USER_TOKEN" with
      | none => .error "env variable \x27X_SLURM_USER_TOKEN\x27 should be set"
      | some token => .ok (user, token, endpoint)

/-- Environment-based constructor `SlurmDB::new_from_env` (lib.rs lines
288-297), identical to the `Slurm` one. -/
def SlurmDB.new_from_env (env : String → Option String) :
    Except String (String × String × String) :=
  match env "X_SLURM_ENDPOINT" with
  | none => .error "env variable \x27X_SLURM_ENDPOINT\x27 should be set"
  | some endpoint =>
    match env "X_SLURM_USER_NAME" with
    | none => .error "env variable \x27X_SLURM_USER_NAME\x27 should be set"
    | some user =>
      match env "X_SLURM_USER_TOKEN" with
      | none => .error "env variable \x27X_SLURM_USER_TOKEN\x27 should be set"
      | some token => .ok (user, token, endpoint)

/-- Lookup of a field by name in a JSON object's field list, as
serde-derive assigns values to struct fields.  The objects handled in
this development contain no duplicate keys. -/
def jGet : List (String × Json) → String → Option Json
  | [], _ => none
  | (k, v) :: rest, key => if k == key then some v else jGet rest key

/-- Deserialization of a JSON string (serde `String`). -/
def decStr : Json → Except String String
  | .str s => .ok s
  | _ => .error "invalid type: expected a string"

/-- Deserialization of a JSON integer number (serde `i64` / `i32`). -/
def decInt : Json → Except String Int
  | .num n => .ok n
  | _ => .error "invalid type: expected an integer"

/-- Deserialization of a JSON boolean (serde `bool`). -/
def decBool : Json → Except String Bool
  | .bool b => .ok b
  | _ => .error "invalid type: expected a boolean"

/-- Deserialization of an `f64`: any JSON number is accepted; parsing a
JSON text can only produce finite values. -/
def decF64 : Json → Except String F64
  | .fnum q => .ok (F64.finite q)
  | .num n => .ok (F64.finite (n : Rat))
  | _ => .error "invalid type: expected a number"

/-- Deserialization of an `Option` value: `null` is `None`, anything
else goes through the inner deserializer. -/
def decOpt (dec : Json → Except String α) : Json → Except String (Option α)
  | .null => .ok none
  | j => (dec j).map some

/-- Deserialization of the elements of a JSON array in order, stopping
at the first failure. -/
def decElems (dec : Json → Except String α) : List Json → Except String (List α)
  | [] => .ok []
  | j :: rest => do
    let x ← dec j
    let xs ← decElems dec rest
    pure (x :: xs)

/-- Deserialization of a `Vec`: the elements of a JSON array. -/
def decList (dec : Json → Except String α) : Json → Except String (List α)
  | .arr xs => decElems dec xs
  | _ => .error "invalid type: expected an array"

/-- Behavior of serde-derive for a struct field that either carries
`#[serde(default)]` or has an `Option` type: a missing field yields the
default, a present value goes through the field deserializer. -/
def fieldD (dec : Json → Except String α) (dflt : α)
    (fs : List (String × Json)) (key : String) : Except String α :=
  match jGet fs key with
  | none => .ok dflt
  | some j => dec j

/-- Behavior of serde-derive for a required field (non-`Option` type and
no `#[serde(default)]`): a missing field is a deserialization error
naming the field. -/
def fieldReq (dec : Json → Except String α) (fs : List (String × Json))
    (key : String) : Except String α :=
  match jGet fs key with
  | none => .error ("missing field " ++ key)
  | some j => dec j

/-- Serialization of a `String`. -/
def encStr (s : String) : Json := .str s

/-- Serialization of an `i64` / `i32`. -/
def encInt (n : Int) : Json := .num n

/-- Serialization of a `bool`. -/
def encBool (b : Bool) : Json := .bool b

/-- Serialization of an `f64` by serde_json: finite values print exactly
(Ryu shortest form reparses to the same value); non-finite values are
written as `null`. -/
def encF64 : F64 → Json
  | .finite q => .fnum q
  | _ => .null

/-- Serialization of an `Option`: `None` is `null`, `Some` serializes
the payload transparently. -/
def encOpt (enc : α → Json) : Option α → Json
  | none => .null
  | some v => enc v

/-- Serialization of a `Vec`. -/
def encList (enc : α → Json) (xs : List α) : Json := .arr (xs.map enc)

/-- Error entity (lib.rs lines 767-773). -/
structure Error where
  error : String
  error_number : Int
deriving DecidableEq

/-- Deserialization of `Error`: both fields carry `#[serde(default)]`. -/
def Error.fromJson (j : Json) : Except String Error :=
  match j with
  | .obj fs => do
    let error ← fieldD decStr "" fs "error"
    let error_number ← fieldD decInt 0 fs "error_number"
    pure { error := error, error_number := error_number }
  | _ => .error "invalid type: expected an object for Error"

/-- MetaSlurmVersion entity (lib.rs lines 757-765). -/
structure MetaSlurmVersion where
  major : Int
  micro : Int
  minor : Int
deriving DecidableEq

/-- Value of the derived `Default` for `MetaSlurmVersion`. -/
def MetaSlurmVersion.default : MetaSlurmVersion :=
  { major := 0, micro := 0, minor := 0 }

/-- Deserialization of `MetaSlurmVersion`. -/
def MetaSlurmVersion.fromJson (j : Json) : Except String MetaSlurmVersion :=
  match j with
  | .obj fs => do
    let major ← fieldD decInt 0 fs "major"
    let micro ← fieldD decInt 0 fs "micro"
    let minor ← fieldD decInt 0 fs "minor"
    pure { major := major, micro := micro, minor := minor }
  | _ => .error "invalid type: expected an object for MetaSlurmVersion"

/-- MetaSlurm entity (lib.rs lines 749-755). -/
structure MetaSlurm where
  version : MetaSlurmVersion
  release : String
deriving DecidableEq

/-- Value of the derived `Default` for `MetaSlurm`. -/
def MetaSlurm.default : MetaSlurm :=
  { version := MetaSlurmVersion.default, release := "" }

/-- Deserialization of `MetaSlurm`. -/
def MetaSlurm.fromJson (j : Json) : Except String MetaSlurm :=
  match j with
  | .obj fs => do
    let version ← fieldD MetaSlurmVersion.fromJson MetaSlurmVersion.default fs "version"
    let release ← fieldD decStr "" fs "release"
    pure { version := version, release := release }
  | _ => .error "invalid type: expected an object for MetaSlurm"

/-- MetaPlugin entity (lib.rs lines 741-747); the `plugin_type` field is
renamed to the JSON key `type`. -/
structure MetaPlugin where
  plugin_type : String
  name : String
deriving DecidableEq

/-- Value of the derived `Default` for `MetaPlugin`. -/
def MetaPlugin.default : MetaPlugin := { plugin_type := "", name := "" }

/-- Deserialization of `MetaPlugin` (JSON key `type` for
`plugin_type`). -/
def MetaPlugin.fromJson (j : Json) : Except String MetaPlugin :=
  match j with
  | .obj fs => do
    let plugin_type ← fieldD decStr "" fs "type"
    let name ← fieldD decStr "" fs "name"
    pure { plugin_type := plugin_type, name := name }
  | _ => .error "invalid type: expected an object for MetaPlugin"

/-- Meta entity (lib.rs lines 733-739); the `slurm` field is renamed to
the JSON key `Slurm`. -/
structure Meta where
  plugin : MetaPlugin
  slurm : MetaSlurm
deriving DecidableEq

/-- Value of the derived `Default` for `Meta`. -/
def Meta.default : Meta :=
  { plugin := MetaPlugin.default, slurm := MetaSlurm.default }

/-- Deserialization of `Meta` (JSON key `Slurm` for `slurm`). -/
def Meta.fromJson (j : Json) : Except String Meta :=
  match j with
  | .obj fs => do
    let plugin ← fieldD MetaPlugin.fromJson MetaPlugin.default fs "plugin"
    let slurm ← fieldD MetaSlurm.fromJson MetaSlurm.default fs "Slurm"
    pure { plugin := plugin, slurm := slurm }
  | _ => .error "invalid type: expected an object for Meta"

/-- Ping entity (lib.rs lines 721-731). -/
structure Ping where
  hostname : String
  ping : String
  mode : String
  status : Int
deriving DecidableEq

/-- Deserialization of `Ping`: every field carries `#[serde(default)]`. -/
def Ping.fromJson (j : Json) : Except String Ping :=
  match j with
  | .obj fs => do
    let hostname ← fieldD decStr "" fs "hostname"
    let ping ← fieldD decStr "" fs "ping"
    let mode ← fieldD decStr "" fs "mode"
    let status ← fieldD decInt 0 fs "status"
    pure { hostname := hostname, ping := ping, mode := mode, status := status }
  | _ => .error "invalid type: expected an object for Ping"

/-- Pings response envelope (lib.rs lines 711-719). -/
structure Pings where
  meta : Meta
  errors : List Error
  pings : List Ping
deriving DecidableEq

/-- Deserialization of `Pings`: every field carries `#[serde(default)]`. -/
def Pings.fromJson (j : Json) : Except String Pings :=
  match j with
  | .obj fs => do
    let meta ← fieldD Meta.fromJson Meta.default fs "meta"
    let errors ← fieldD (decList Error.fromJson) [] fs "errors"
    let pings ← fieldD (decList Ping.fromJson) [] fs "pings"
    pure { meta := meta, errors := errors, pings := pings }
  | _ => .error "invalid type: expected an object for Pings"

/-- ReservationPurgeCompleted entity (lib.rs lines 405-409). -/
structure ReservationPurgeCompleted where
  time : Option Int
deriving DecidableEq

/-- Value of the derived `Default` for `ReservationPurgeCompleted`. -/
def ReservationPurgeCompleted.default : ReservationPurgeCompleted :=
  { time := none }

/-- Deserialization of `ReservationPurgeCompleted`. -/
def ReservationPurgeCompleted.fromJson (j : Json) :
    Except String ReservationPurgeCompleted :=
  match j with
  | .obj fs => do
    let time ← fieldD (decOpt decInt) none fs "time"
    pure { time := time }
  | _ => .error "invalid type: expected an object for ReservationPurgeCompleted"

/-- Serialization of `ReservationPurgeCompleted`. -/
def ReservationPurgeCompleted.toJson (r : ReservationPurgeCompleted) : Json :=
  .obj [("time", encOpt encInt r.time)]

/-- Reservation entity (lib.rs lines 363-403); every field carries
`#[serde(default)]`. -/
structure Reservation where
  accounts : Option String
  burst_buffer : Option String
  core_count : Option Int
  core_spec_cnt : Option Int
  end_time : Option Int
  features : Option String
  flags : List String
  groups : Option String
  licenses : Option String
  max_start_delay : Option Int
  name : Option String
  node_count : Option Int
  node_list : Option String
  partition : Option String
  purge_completed : ReservationPurgeCompleted
  start_time : Option Int
  watts : Option Int
  tres : Option String
  users : Option String
deriving DecidableEq

/-- Value of the derived `Default` for `Reservation`. -/
def Reservation.default : Reservation :=
  { accounts := none, burst_buffer := none, core_count := none,
    core_spec_cnt := none, end_time := none, features := none, flags := [],
    groups := none, licenses := none, max_start_delay := none, name := none,
    node_count := none, node_list := none, partition := none,
    purge_completed := ReservationPurgeCompleted.default, start_time := none,
    watts := none, tres := none, users := none }

/-- Deserialization of `Reservation`. -/
def Reservation.fromJson (j : Json) : Except String Reservation :=
  match j with
  | .obj fs => do
    let accounts ← fieldD (decOpt decStr) none fs "accounts"
    let burst_buffer ← fieldD (decOpt decStr) none fs "burst_buffer"
    let core_count ← fieldD (decOpt decInt) none fs "core_count"
    let core_spec_cnt ← fieldD (decOpt decInt) none fs "core_spec_cnt"
    let end_time ← fieldD (decOpt decInt) none fs "end_time"
    let features ← fieldD (decOpt decStr) none fs "features"
    let flags ← fieldD (decList decStr) [] fs "flags"
    let groups ← fieldD (decOpt decStr) none fs "groups"
    let licenses ← fieldD (decOpt decStr) none fs "licenses"
    let max_start_delay ← fieldD (decOpt decInt) none fs "max_start_delay"
    let name ← fieldD (decOpt decStr) none fs "name"
    let node_count ← fieldD (decOpt decInt) none fs "node_count"
    let node_list ← fieldD (decOpt decStr) none fs "node_list"
    let partition ← fieldD (decOpt decStr) none fs "partition"
    let purge_completed ←
      fieldD ReservationPurgeCompleted.fromJson ReservationPurgeCompleted.default
        fs "purge_completed"
    let start_time ← fieldD (decOpt decInt) none fs "start_time"
    let watts ← fieldD (decOpt decInt) none fs "watts"
    let tres ← fieldD (decOpt decStr) none fs "tres"
    let users ← fieldD (decOpt decStr) none fs "users"
    pure { accounts := accounts, burst_buffer := burst_buffer,
           core_count := core_count, core_spec_cnt := core_spec_cnt,
           end_time := end_time, features := features, flags := flags,
           groups := groups, licenses := licenses,
           max_start_delay := max_start_delay, name := name,
           node_count := node_count, node_list := node_list,
           partition := partition, purge_completed := purge_completed,
           start_time := start_time, watts := watts, tres := tres,
           users := users }
  | _ => .error "invalid type: expected an object for Reservation"

/-- Serialization of `Reservation`, fields in declaration order. -/
def Reservation.toJson (r : Reservation) : Json :=
  .obj [("accounts", encOpt encStr r.accounts),
        ("burst_buffer", encOpt encStr r.burst_buffer),
        ("core_count", encOpt encInt r.core_count),
        ("core_spec_cnt", encOpt encInt r.core_spec_cnt),
        ("end_time", encOpt encInt r.end_time),
        ("features", encOpt encStr r.features),
        ("flags", encList encStr r.flags),
        ("groups", encOpt encStr r.groups),
        ("licenses", encOpt encStr r.licenses),
        ("max_start_delay", encOpt encInt r.max_start_delay),
        ("name", encOpt encStr r.name),
        ("node_count", encOpt encInt r.node_count),
        ("node_list", encOpt encStr r.node_list),
        ("partition", encOpt encStr r.partition),
        ("purge_completed", r.purge_completed.toJson),
        ("start_time", encOpt encInt r.start_time),
        ("watts", encOpt encInt r.watts),
        ("tres", encOpt encStr r.tres),
        ("users", encOpt encStr r.users)]

/-- ReservationsResponse envelope (lib.rs lines 353-361). -/
structure ReservationsResponse where
  meta : Meta
  errors : List Error
  reservation : List Reservation
deriving DecidableEq

/-- Deserialization of `ReservationsResponse`. -/
def ReservationsResponse.fromJson (j : Json) : Except String ReservationsResponse :=
  match j with
  | .obj fs => do
    let meta ← fieldD Meta.fromJson Meta.default fs "meta"
    let errors ← fieldD (decList Error.fromJson) [] fs "errors"
    let reservation ← fieldD (decList Reservation.fromJson) [] fs "reservation"
    pure { meta := meta, errors := errors, reservation := reservation }
  | _ => .error "invalid type: expected an object for ReservationsResponse"

/-- DiagRpcm entity (lib.rs lines 511-523). -/
structure DiagRpcm where
  message_type : Option String
  type_id : Option Int
  count : Option Int
  average_time : Option Int
  total_time : Option Int
deriving DecidableEq

/-- Value of the derived `Default` for `DiagRpcm`. -/
def DiagRpcm.default : DiagRpcm :=
  { message_type := none, type_id := none, count := none,
    average_time := none, total_time := none }

/-- Deserialization of `DiagRpcm`. -/
def DiagRpcm.fromJson (j : Json) : Except String DiagRpcm :=
  match j with
  | .obj fs => do
    let message_type ← fieldD (decOpt decStr) none fs "message_type"
    let type_id ← fieldD (decOpt decInt) none fs "type_id"
    let count ← fieldD (decOpt decInt) none fs "count"
    let average_time ← fieldD (decOpt decInt) none fs "average_time"
    let total_time ← fieldD (decOpt decInt) none fs "total_time"
    pure { message_type := message_type, type_id := type_id, count := count,
           average_time := average_time, total_time := total_time }
  | _ => .error "invalid type: expected an object for DiagRpcm"

/-- DiagRpcu entity (lib.rs lines 525-537). -/
structure DiagRpcu where
  user : Option String
  user_id : Option Int
  count : Option Int
  average_time : Option Int
  total_time : Option Int
deriving DecidableEq

/-- Value of the derived `Default` for `DiagRpcu`. -/
def DiagRpcu.default : DiagRpcu :=
  { user := none, user_id := none, count := none, average_time := none,
    total_time := none }

/-- Deserialization of `DiagRpcu`. -/
def DiagRpcu.fromJson (j : Json) : Except String DiagRpcu :=
  match j with
  | .obj fs => do
    let user ← fieldD (decOpt decStr) none fs "user"
    let user_id ← fieldD (decOpt decInt) none fs "user_id"
    let count ← fieldD (decOpt decInt) none fs "count"
    let average_time ← fieldD (decOpt decInt) none fs "average_time"
    let total_time ← fieldD (decOpt decInt) none fs "total_time"
    pure { user := user, user_id := user_id, count := count,
           average_time := average_time, total_time := total_time }
  | _ => .error "invalid type: expected an object for DiagRpcu"

/-- DiagStatistics entity (lib.rs lines 421-509); every field carries
`#[serde(default)]`. -/
structure DiagStatistics where
  parts_packed : Option Int
  req_time : Option Int
  req_time_start : Option Int
  server_thread_count : Option Int
  agent_queue_size : Option Int
  agent_count : Option Int
  agent_thread_count : Option Int
  dbd_agent_queue_size : Option Int
  gettimeofday_latency : Option Int
  schedule_cycle_max : Option Int
  schedule_cycle_last : Option Int
  schedule_cycle_total : Option Int
  schedule_cycle_mean : Option Int
  schedule_cycle_mean_depth : Option Int
  schedule_cycle_per_minute : Option Int
  schedule_queue_length : Option Int
  jobs_submitted : Option Int
  jobs_started : Option Int
  jobs_completed : Option Int
  jobs_canceled : Option Int
  jobs_failed : Option Int
  jobs_pending : Option Int
  jobs_running : Option Int
  job_states_ts : Option Int
  bf_backfilled_jobs : Option Int
  bf_last_backfilled_jobs : Option Int
  bf_backfilled_het_jobs : Option Int
  bf_cycle_counter : Option Int
  bf_cycle_mean : Option Int
  bf_cycle_max : Option Int
  bf_last_depth : Option Int
  bf_last_depth_try : Option Int
  bf_depth_mean : Option Int
  bf_depth_mean_try : Option Int
  bf_cycle_last : Option Int
  bf_queue_len : Option Int
  bf_queue_len_mean : Option Int
  bf_table_size : Option Int
  bf_table_size_mean : Option Int
  bf_when_last_cycle : Option Int
  bf_active : Option Bool
  rpcs_by_message_type : Option (List DiagRpcm)
  rpcs_by_user : Option (List DiagRpcu)
deriving DecidableEq

/-- Value of the derived `Default` for `DiagStatistics`. -/
def DiagStatistics.default : DiagStatistics :=
  { parts_packed := none, req_time := none, req_time_start := none,
    server_thread_count := none, agent_queue_size := none, agent_count := none,
    agent_thread_count := none, dbd_agent_queue_size := none,
    gettimeofday_latency := none, schedule_cycle_max := none,
    schedule_cycle_last := none, schedule_cycle_total := none,
    schedule_cycle_mean := none, schedule_cycle_mean_depth := none,
    schedule_cycle_per_minute := none, schedule_queue_length := none,
    jobs_submitted := none, jobs_started := none, jobs_completed := none,
    jobs_canceled := none, jobs_failed := none, jobs_pending := none,
    jobs_running := none, job_states_ts := none, bf_backfilled_jobs := none,
    bf_last_backfilled_jobs := none, bf_backfilled_het_jobs := none,
    bf_cycle_counter := none, bf_cycle_mean := none, bf_cycle_max := none,
    bf_last_depth := none, bf_last_depth_try := none, bf_depth_mean := none,
    bf_depth_mean_try := none, bf_cycle_last := none, bf_queue_len := none,
    bf_queue_len_mean := none, bf_table_size := none,
    bf_table_size_mean := none, bf_when_last_cycle := none, bf_active := none,
    rpcs_by_message_type := none, rpcs_by_user := none }

/-- Deserialization of `DiagStatistics`. -/
def DiagStatistics.fromJson (j : Json) : Except String DiagStatistics :=
  match j with
  | .obj fs => do
    let parts_packed ← fieldD (decOpt decInt) none fs "parts_packed"
    let req_time ← fieldD (decOpt decInt) none fs "req_time"
    let req_time_start ← fieldD (decOpt decInt) none fs "req_time_start"
    let server_thread_count ← fieldD (decOpt decInt) none fs "server_thread_count"
    let agent_queue_size ← fieldD (decOpt decInt) none fs "agent_queue_size"
    let agent_count ← fieldD (decOpt decInt) none fs "agent_count"
    let agent_thread_count ← fieldD (decOpt decInt) none fs "agent_thread_count"
    let dbd_agent_queue_size ← fieldD (decOpt decInt) none fs "dbd_agent_queue_size"
    let gettimeofday_latency ← fieldD (decOpt decInt) none fs "gettimeofday_latency"
    let schedule_cycle_max ← fieldD (decOpt decInt) none fs "schedule_cycle_max"
    let schedule_cycle_last ← fieldD (decOpt decInt) none fs "schedule_cycle_last"
    let schedule_cycle_total ← fieldD (decOpt decInt) none fs "schedule_cycle_total"
    let schedule_cycle_mean ← fieldD (decOpt decInt) none fs "schedule_cycle_mean"
    let schedule_cycle_mean_depth ← fieldD (decOpt decInt) none fs "schedule_cycle_mean_depth"
    let schedule_cycle_per_minute ← fieldD (decOpt decInt) none fs "schedule_cycle_per_minute"
    let schedule_queue_length ← fieldD (decOpt decInt) none fs "schedule_queue_length"
    let jobs_submitted ← fieldD (decOpt decInt) none fs "jobs_submitted"
    let jobs_started ← fieldD (decOpt decInt) none fs "jobs_started"
    let jobs_completed ← fieldD (decOpt decInt) none fs "jobs_completed"
    let jobs_canceled ← fieldD (decOpt decInt) none fs "jobs_canceled"
    let jobs_failed ← fieldD (decOpt decInt) none fs "jobs_failed"
    let jobs_pending ← fieldD (decOpt decInt) none fs "jobs_pending"
    let jobs_running ← fieldD (decOpt decInt) none fs "jobs_running"
    let job_states_ts ← fieldD (decOpt decInt) none fs "job_states_ts"
    let bf_backfilled_jobs ← fieldD (decOpt decInt) none fs "bf_backfilled_jobs"
    let bf_last_backfilled_jobs ← fieldD (decOpt decInt) none fs "bf_last_backfilled_jobs"
    let bf_backfilled_het_jobs ← fieldD (decOpt decInt) none fs "bf_backfilled_het_jobs"
    let bf_cycle_counter ← fieldD (decOpt decInt) none fs "bf_cycle_counter"
    let bf_cycle_mean ← fieldD (decOpt decInt) none fs "bf_cycle_mean"
    let bf_cycle_max ← fieldD (decOpt decInt) none fs "bf_cycle_max"
    let bf_last_depth ← fieldD (decOpt decInt) none fs "bf_last_depth"
    let bf_last_depth_try ← fieldD (decOpt decInt) none fs "bf_last_depth_try"
    let bf_depth_mean ← fieldD (decOpt decInt) none fs "bf_depth_mean"
    let bf_depth_mean_try ← fieldD (decOpt decInt) none fs "bf_depth_mean_try"
    let bf_cycle_last ← fieldD (decOpt decInt) none fs "bf_cycle_last"
    let bf_queue_len ← fieldD (decOpt decInt) none fs "bf_queue_len"
    let bf_queue_len_mean ← fieldD (decOpt decInt) none fs "bf_queue_len_mean"
    let bf_table_size ← fieldD (decOpt decInt) none fs "bf_table_size"
    let bf_table_size_mean ← fieldD (decOpt decInt) none fs "bf_table_size_mean"
    let bf_when_last_cycle ← fieldD (decOpt decInt) none fs "bf_when_last_cycle"
    let bf_active ← fieldD (decOpt decBool) none fs "bf_active"
    let rpcs_by_message_type ←
      fieldD (decOpt (decList DiagRpcm.fromJson)) none fs "rpcs_by_message_type"
    let rpcs_by_user ←
      fieldD (decOpt (decList DiagRpcu.fromJson)) none fs "rpcs_by_user"
    pure { parts_packed := parts_packed, req_time := req_time,
           req_time_start := req_time_start,
           server_thread_count := server_thread_count,
           agent_queue_size := agent_queue_size, agent_count := agent_count,
           agent_thread_count := agent_thread_count,
           dbd_agent_queue_size := dbd_agent_queue_size,
           gettimeofday_latency := gettimeofday_latency,
           schedule_cycle_max := schedule_cycle_max,
           schedule_cycle_last := schedule_cycle_last,
           schedule_cycle_total := schedule_cycle_total,
           schedule_cycle_mean := schedule_cycle_mean,
           schedule_cycle_mean_depth := schedule_cycle_mean_depth,
           schedule_cycle_per_minute := schedule_cycle_per_minute,
           schedule_queue_length := schedule_queue_length,
           jobs_submitted := jobs_submitted, jobs_started := jobs_started,
           jobs_completed := jobs_completed, jobs_canceled := jobs_canceled,
           jobs_failed := jobs_failed, jobs_pending := jobs_pending,
           jobs_running := jobs_running, job_states_ts := job_states_ts,
           bf_backfilled_jobs := bf_backfilled_jobs,
           bf_last_backfilled_jobs := bf_last_backfilled_jobs,
           bf_backfilled_het_jobs := bf_backfilled_het_jobs,
           bf_cycle_counter := bf_cycle_counter, bf_cycle_mean := bf_cycle_mean,
           bf_cycle_max := bf_cycle_max, bf_last_depth := bf_last_depth,
           bf_last_depth_try := bf_last_depth_try, bf_depth_mean := bf_depth_mean,
           bf_depth_mean_try := bf_depth_mean_try, bf_cycle_last := bf_cycle_last,
           bf_queue_len := bf_queue_len, bf_queue_len_mean := bf_queue_len_mean,
           bf_table_size := bf_table_size, bf_table_size_mean := bf_table_size_mean,
           bf_when_last_cycle := bf_when_last_cycle, bf_active := bf_active,
           rpcs_by_message_type := rpcs_by_message_type,
           rpcs_by_user := rpcs_by_user }
  | _ => .error "invalid type: expected an object for DiagStatistics"

/-- Diag response envelope (lib.rs lines 411-419). -/
structure Diag where
  meta : Meta
  errors : List Error
  statistics : DiagStatistics
deriving DecidableEq

/-- Deserialization of `Diag`. -/
def Diag.fromJson (j : Json) : Except String Diag :=
  match j with
  | .obj fs => do
    let meta ← fieldD Meta.fromJson Meta.default fs "meta"
    let errors ← fieldD (decList Error.fromJson) [] fs "errors"
    let statistics ← fieldD DiagStatistics.fromJson DiagStatistics.default fs "statistics"
    pure { meta := meta, errors := errors, statistics := statistics }
  | _ => .error "invalid type: expected an object for Diag"

/-- Node entity (lib.rs lines 549-635); every field carries
`#[serde(default)]`.  The field `tres_weighted` is the library's one
`f64` field. -/
structure Node where
  architecture : Option String
  burstbuffer_network_address : Option String
  boards : Option Int
  boot_time : Option Int
  cores : Option Int
  cpu_binding : Option Int
  cpu_load : Option Int
  free_memory : Option Int
  cpus : Option Int
  features : Option String
  active_features : Option String
  gres : Option String
  gres_drained : Option String
  gres_used : Option String
  mcs_label : Option String
  name : Option String
  next_state_after_reboot : Option String
  next_state_after_reboot_flags : List String
  address : Option String
  hostname : Option String
  state : Option String
  state_flags : List String
  operating_system : Option String
  owner : Option String
  partitions : List String
  port : Option Int
  real_memory : Option Int
  reason : Option String
  reason_changed_at : Option Int
  reason_set_by_user : Option String
  slurmd_start_time : Option Int
  sockets : Option Int
  threads : Option Int
  temporary_disk : Option Int
  weight : Option Int
  tres : Option String
  tres_used : Option String
  tres_weighted : Option F64
  slurmd_version : Option String
  alloc_cpus : Option Int
  idle_cpus : Option Int
  alloc_memory : Option Int
deriving DecidableEq

/-- Deserialization of `Node`. -/
def Node.fromJson (j : Json) : Except String Node :=
  match j with
  | .obj fs => do
    let architecture ← fieldD (decOpt decStr) none fs "architecture"
    let burstbuffer_network_address ← fieldD (decOpt decStr) none fs "burstbuffer_network_address"
    let boards ← fieldD (decOpt decInt) none fs "boards"
    let boot_time ← fieldD (decOpt decInt) none fs "boot_time"
    let cores ← fieldD (decOpt decInt) none fs "cores"
    let cpu_binding ← fieldD (decOpt decInt) none fs "cpu_binding"
    let cpu_load ← fieldD (decOpt decInt) none fs "cpu_load"
    let free_memory ← fieldD (decOpt decInt) none fs "free_memory"
    let cpus ← fieldD (decOpt decInt) none fs "cpus"
    let features ← fieldD (decOpt decStr) none fs "features"
    let active_features ← fieldD (decOpt decStr) none fs "active_features"
    let gres ← fieldD (decOpt decStr) none fs "gres"
    let gres_drained ← fieldD (decOpt decStr) none fs "gres_drained"
    let gres_used ← fieldD (decOpt decStr) none fs "gres_used"
    let mcs_label ← fieldD (decOpt decStr) none fs "mcs_label"
    let name ← fieldD (decOpt decStr) none fs "name"
    let next_state_after_reboot ← fieldD (decOpt decStr) none fs "next_state_after_reboot"
    let next_state_after_reboot_flags ← fieldD (decList decStr) [] fs "next_state_after_reboot_flags"
    let address ← fieldD (decOpt decStr) none fs "address"
    let hostname ← fieldD (decOpt decStr) none fs "hostname"
    let state ← fieldD (decOpt decStr) none fs "state"
    let state_flags ← fieldD (decList decStr) [] fs "state_flags"
    let operating_system ← fieldD (decOpt decStr) none fs "operating_system"
    let owner ← fieldD (decOpt decStr) none fs "owner"
    let partitions ← fieldD (decList decStr) [] fs "partitions"
    let port ← fieldD (decOpt decInt) none fs "port"
    let real_memory ← fieldD (decOpt decInt) none fs "real_memory"
    let reason ← fieldD (decOpt decStr) none fs "reason"
    let reason_changed_at ← fieldD (decOpt decInt) none fs "reason_changed_at"
    let reason_set_by_user ← fieldD (decOpt decStr) none fs "reason_set_by_user"
    let slurmd_start_time ← fieldD (decOpt decInt) none fs "slurmd_start_time"
    let sockets ← fieldD (decOpt decInt) none fs "sockets"
    let threads ← fieldD (decOpt decInt) none fs "threads"
    let temporary_disk ← fieldD (decOpt decInt) none fs "temporary_disk"
    let weight ← fieldD (decOpt decInt) none fs "weight"
    let tres ← fieldD (decOpt decStr) none fs "tres"
    let tres_used ← fieldD (decOpt decStr) none fs "tres_used"
    let tres_weighted ← fieldD (decOpt decF64) none fs "tres_weighted"
    let slurmd_version ← fieldD (decOpt decStr) none fs "slurmd_version"
    let alloc_cpus ← fieldD (decOpt decInt) none fs "alloc_cpus"
    let idle_cpus ← fieldD (decOpt decInt) none fs "idle_cpus"
    let alloc_memory ← fieldD (decOpt decInt) none fs "alloc_memory"
    pure { architecture := architecture,
           burstbuffer_network_address := burstbuffer_network_address,
           boards := boards, boot_time := boot_time, cores := cores,
           cpu_binding := cpu_binding, cpu_load := cpu_load,
           free_memory := free_memory, cpus := cpus, features := features,
           active_features := active_features, gres := gres,
           gres_drained := gres_drained, gres_used := gres_used,
           mcs_label := mcs_label, name := name,
           next_state_after_reboot := next_state_after_reboot,
           next_state_after_reboot_flags := next_state_after_reboot_flags,
           address := address, hostname := hostname, state := state,
           state_flags := state_flags, operating_system := operating_system,
           owner := owner, partitions := partitions, port := port,
           real_memory := real_memory, reason := reason,
           reason_changed_at := reason_changed_at,
           reason_set_by_user := reason_set_by_user,
           slurmd_start_time := slurmd_start_time, sockets := sockets,
           threads := threads, temporary_disk := temporary_disk,
           weight := weight, tres := tres, tres_used := tres_used,
           tres_weighted := tres_weighted, slurmd_version := slurmd_version,
           alloc_cpus := alloc_cpus, idle_cpus := idle_cpus,
           alloc_memory := alloc_memory }
  | _ => .error "invalid type: expected an object for Node"

/-- Serialization of `Node`, fields in declaration order. -/
def Node.toJson (n : Node) : Json :=
  .obj [("architecture", encOpt encStr n.architecture),
        ("burstbuffer_network_address", encOpt encStr n.burstbuffer_network_address),
        ("boards", encOpt encInt n.boards),
        ("boot_time", encOpt encInt n.boot_time),
        ("cores", encOpt encInt n.cores),
        ("cpu_binding", encOpt encInt n.cpu_binding),
        ("cpu_load", encOpt encInt n.cpu_load),
        ("free_memory", encOpt encInt n.free_memory),
        ("cpus", encOpt encInt n.cpus),
        ("features", encOpt encStr n.features),
        ("active_features", encOpt encStr n.active_features),
        ("gres", encOpt encStr n.gres),
        ("gres_drained", encOpt encStr n.gres_drained),
        ("gres_used", encOpt encStr n.gres_used),
        ("mcs_label", encOpt encStr n.mcs_label),
        ("name", encOpt encStr n.name),
        ("next_state_after_reboot", encOpt encStr n.next_state_after_reboot),
        ("next_state_after_reboot_flags", encList encStr n.next_state_after_reboot_flags),
        ("address", encOpt encStr n.address),
        ("hostname", encOpt encStr n.hostname),
        ("state", encOpt encStr n.state),
        ("state_flags", encList encStr n.state_flags),
        ("operating_system", encOpt encStr n.operating_system),
        ("owner", encOpt encStr n.owner),
        ("partitions", encList encStr n.partitions),
        ("port", encOpt encInt n.port),
        ("real_memory", encOpt encInt n.real_memory),
        ("reason", encOpt encStr n.reason),
        ("reason_changed_at", encOpt encInt n.reason_changed_at),
        ("reason_set_by_user", encOpt encStr n.reason_set_by_user),
        ("slurmd_start_time", encOpt encInt n.slurmd_start_time),
        ("sockets", encOpt encInt n.sockets),
        ("threads", encOpt encInt n.threads),
        ("temporary_disk", encOpt encInt n.temporary_disk),
        ("weight", encOpt encInt n.weight),
        ("tres", encOpt encStr n.tres),
        ("tres_used", encOpt encStr n.tres_used),
        ("tres_weighted", encOpt encF64 n.tres_weighted),
        ("slurmd_version", encOpt encStr n.slurmd_version),
        ("alloc_cpus", encOpt encInt n.alloc_cpus),
        ("idle_cpus", encOpt encInt n.idle_cpus),
        ("alloc_memory", encOpt encInt n.alloc_memory)]

/-- NodesResponse envelope (lib.rs lines 539-547). -/
structure NodesResponse where
  meta : Meta
  errors : List Error
  nodes : List Node
deriving DecidableEq

/-- Deserialization of `NodesResponse`. -/
def NodesResponse.fromJson (j : Json) : Except String NodesResponse :=
  match j with
  | .obj fs => do
    let meta ← fieldD Meta.fromJson Meta.default fs "meta"
    let errors ← fieldD (decList Error.fromJson) [] fs "errors"
    let nodes ← fieldD (decList Node.fromJson) [] fs "nodes"
    pure { meta := meta, errors := errors, nodes := nodes }
  | _ => .error "invalid type: expected an object for NodesResponse"

/-- Partition entity (lib.rs lines 647-709).  All fields carry
`#[serde(default)]` except three whose attribute is commented out in the
source: `allowed_accounts` (a `String`, so its absence is a
deserialization error), and `maximum_nodes_per_job` / `priority_tier`
(`Option` types, which serde still defaults to `None` when absent). -/
structure Partition where
  flags : List String
  preemption_mode : List String
  allowed_allocation_nodes : String
  allowed_accounts : String
  allowed_groups : String
  allowed_qos : String
  alternative : String
  billing_weights : String
  default_memory_per_cpu : Option Int
  default_time_limit : Option Int
  denied_accounts : String
  denied_qos : String
  preemption_grace_time : Option Int
  maximum_cpus_per_node : Option Int
  maximum_memory_per_node : Option Int
  maximum_nodes_per_job : Option Int
  max_time_limit : Option Int
  min_nodes_per_job : Option Int
  name : String
  nodes : String
  over_time_limit : Option Int
  priority_job_factor : Option Int
  priority_tier : Option Int
  qos : String
  state : String
  total_cpus : Option Int
  total_nodes : Option Int
  tres : String
  maximum_memory_per_cpu : Option Int
  default_memory_per_node : Option Int
deriving DecidableEq

/-- Deserialization of `Partition`; `allowed_accounts` is the one
required field. -/
def Partition.fromJson (j : Json) : Except String Partition :=
  match j with
  | .obj fs => do
    let flags ← fieldD (decList decStr) [] fs "flags"
    let preemption_mode ← fieldD (decList decStr) [] fs "preemption_mode"
    let allowed_allocation_nodes ← fieldD decStr "" fs "allowed_allocation_nodes"
    let allowed_accounts ← fieldReq decStr fs "allowed_accounts"
    let allowed_groups ← fieldD decStr "" fs "allowed_groups"
    let allowed_qos ← fieldD decStr "" fs "allowed_qos"
    let alternative ← fieldD decStr "" fs "alternative"
    let billing_weights ← fieldD decStr "" fs "billing_weights"
    let default_memory_per_cpu ← fieldD (decOpt decInt) none fs "default_memory_per_cpu"
    let default_time_limit ← fieldD (decOpt decInt) none fs "default_time_limit"
    let denied_accounts ← fieldD decStr "" fs "denied_accounts"
    let denied_qos ← fieldD decStr "" fs "denied_qos"
    let preemption_grace_time ← fieldD (decOpt decInt) none fs "preemption_grace_time"
    let maximum_cpus_per_node ← fieldD (decOpt decInt) none fs "maximum_cpus_per_node"
    let maximum_memory_per_node ← fieldD (decOpt decInt) none fs "maximum_memory_per_node"
    let maximum_nodes_per_job ← fieldD (decOpt decInt) none fs "maximum_nodes_per_job"
    let max_time_limit ← fieldD (decOpt decInt) none fs "max_time_limit"
    let min_nodes_per_job ← fieldD (decOpt decInt) none fs "min_nodes_per_job"
    let name ← fieldD decStr "" fs "name"
    let nodes ← fieldD decStr "" fs "nodes"
    let over_time_limit ← fieldD (decOpt decInt) none fs "over_time_limit"
    let priority_job_factor ← fieldD (decOpt decInt) none fs "priority_job_factor"
    let priority_tier ← fieldD (decOpt decInt) none fs "priority_tier"
    let qos ← fieldD decStr "" fs "qos"
    let state ← fieldD decStr "" fs "state"
    let total_cpus ← fieldD (decOpt decInt) none fs "total_cpus"
    let total_nodes ← fieldD (decOpt decInt) none fs "total_nodes"
    let tres ← fieldD decStr "" fs "tres"
    let maximum_memory_per_cpu ← fieldD (decOpt decInt) none fs "maximum_memory_per_cpu"
    let default_memory_per_node ← fieldD (decOpt decInt) none fs "default_memory_per_node"
    pure { flags := flags, preemption_mode := preemption_mode,
           allowed_allocation_nodes := allowed_allocation_nodes,
           allowed_accounts := allowed_accounts,
           allowed_groups := allowed_groups, allowed_qos := allowed_qos,
           alternative := alternative, billing_weights := billing_weights,
           default_memory_per_cpu := default_memory_per_cpu,
           default_time_limit := default_time_limit,
           denied_accounts := denied_accounts, denied_qos := denied_qos,
           preemption_grace_time := preemption_grace_time,
           maximum_cpus_per_node := maximum_cpus_per_node,
           maximum_memory_per_node := maximum_memory_per_node,
           maximum_nodes_per_job := maximum_nodes_per_job,
           max_time_limit := max_time_limit,
           min_nodes_per_job := min_nodes_per_job, name := name,
           nodes := nodes, over_time_limit := over_time_limit,
           priority_job_factor := priority_job_factor,
           priority_tier := priority_tier, qos := qos, state := state,
           total_cpus := total_cpus, total_nodes := total_nodes, tres := tres,
           maximum_memory_per_cpu := maximum_memory_per_cpu,
           default_memory_per_node := default_memory_per_node }
  | _ => .error "invalid type: expected an object for Partition"

/-- Serialization of `Partition`, fields in declaration order. -/
def Partition.toJson (p : Partition) : Json :=
  .obj [("flags", encList encStr p.flags),
        ("preemption_mode", encList encStr p.preemption_mode),
        ("allowed_allocation_nodes", encStr p.allowed_allocation_nodes),
        ("allowed_accounts", encStr p.allowed_accounts),
        ("allowed_groups", encStr p.allowed_groups),
        ("allowed_qos", encStr p.allowed_qos),
        ("alternative", encStr p.alternative),
        ("billing_weights", encStr p.billing_weights),
        ("default_memory_per_cpu", encOpt encInt p.default_memory_per_cpu),
        ("default_time_limit", encOpt encInt p.default_time_limit),
        ("denied_accounts", encStr p.denied_accounts),
        ("denied_qos", encStr p.denied_qos),
        ("preemption_grace_time", encOpt encInt p.preemption_grace_time),
        ("maximum_cpus_per_node", encOpt encInt p.maximum_cpus_per_node),
        ("maximum_memory_per_node", encOpt encInt p.maximum_memory_per_node),
        ("maximum_nodes_per_job", encOpt encInt p.maximum_nodes_per_job),
        ("max_time_limit", encOpt encInt p.max_time_limit),
        ("min_nodes_per_job", encOpt encInt p.min_nodes_per_job),
        ("name", encStr p.name),
        ("nodes", encStr p.nodes),
        ("over_time_limit", encOpt encInt p.over_time_limit),
        ("priority_job_factor", encOpt encInt p.priority_job_factor),
        ("priority_tier", encOpt encInt p.priority_tier),
        ("qos", encStr p.qos),
        ("state", encStr p.state),
        ("total_cpus", encOpt encInt p.total_cpus),
        ("total_nodes", encOpt encInt p.total_nodes),
        ("tres", encStr p.tres),
        ("maximum_memory_per_cpu", encOpt encInt p.maximum_memory_per_cpu),
        ("default_memory_per_node", encOpt encInt p.default_memory_per_node)]

/-- PartitionsResponse envelope (lib.rs lines 637-645). -/
structure PartitionsResponse where
  meta : Meta
  errors : List Error
  partitions : List Partition
deriving DecidableEq

/-- Deserialization of `PartitionsResponse`. -/
def PartitionsResponse.fromJson (j : Json) : Except String PartitionsResponse :=
  match j with
  | .obj fs => do
    let meta ← fieldD Meta.fromJson Meta.default fs "meta"
    let errors ← fieldD (decList Error.fromJson) [] fs "errors"
    let partitions ← fieldD (decList Partition.fromJson) [] fs "partitions"
    pure { meta := meta, errors := errors, partitions := partitions }
  | _ => .error "invalid type: expected an object for PartitionsResponse"

/-- Outcome of an executed HTTP exchange as seen by an endpoint method:
the status code, the raw body text (read by `response.text()` on the
non-200 path), and the result of parsing the body as JSON (the parsing
half of `response.json()` on the 200 path). -/
structure HttpResponse where
  status : Nat
  text : String
  jsonBody : Except String Json

/-- Error value an endpoint method can return (`anyhow::Error` in the
source, structured here by provenance): a request-construction error, the
`bail!` carrying status code and body text, or a decode error. -/
inductive ClientError where
  | requestBuild (e : ReqError)
  | statusError (status : Nat) (body : String)
  | decodeError (msg : String)
deriving DecidableEq

/-- Shared shape of the 200-status path of every endpoint method: parse
the body as JSON and deserialize it into the endpoint's typed response;
either failure is returned as a decode error, never as a defaulted
value. -/
def handle200 (decode : Json → Except String α) (response : HttpResponse) :
    Except ClientError α :=
  match response.jsonBody with
  | .error e => .error (.decodeError e)
  | .ok j =>
    match decode j with
    | .error e => .error (.decodeError e)
    | .ok v => .ok v

/-- Endpoint method `Slurm::ping` (lib.rs lines 117-130), with the HTTP
exchange's outcome passed explicitly: builds the GET request for `ping`,
and on a non-200 status bails with the status code and body text before
any JSON decoding; on 200 it decodes the body into `Pings`. -/
def Slurm.ping (c : Slurm) (response : HttpResponse) : Except ClientError Pings :=
  match Slurm.request c .GET "ping" .null none with
  | .error e => .error (.requestBuild e)
  | .ok _ =>
    if response.status = 200 then
      match response.jsonBody with
      | .error e => .error (.decodeError e)
      | .ok j =>
        match Pings.fromJson j with
        | .error e => .error (.decodeError e)
        | .ok r => .ok r
    else .error (.statusError response.status response.text)

/-- Endpoint method `Slurm::get_partitions` (lib.rs lines 134-147). -/
def Slurm.get_partitions (c : Slurm) (response : HttpResponse) :
    Except ClientError PartitionsResponse :=
  match Slurm.request c .GET "partitions" .null none with
  | .error e => .error (.requestBuild e)
  | .ok _ =>
    if response.status = 200 then
      match response.jsonBody with
      | .error e => .error (.decodeError e)
      | .ok j =>
        match PartitionsResponse.fromJson j with
        | .error e => .error (.decodeError e)
        | .ok r => .ok r
    else .error (.statusError response.status response.text)

/-- Endpoint method `Slurm::get_partition` (lib.rs lines 151-164):
interpolates the partition name into the path. -/
def Slurm.get_partition (c : Slurm) (partition : String) (response : HttpResponse) :
    Except ClientError PartitionsResponse :=
  match Slurm.request c .GET ("partition/" ++ partition) .null none with
  | .error e => .error (.requestBuild e)
  | .ok _ =>
    if response.status = 200 then
      match response.jsonBody with
      | .error e => .error (.decodeError e)
      | .ok j =>
        match PartitionsResponse.fromJson j with
        | .error e => .error (.decodeError e)
        | .ok r => .ok r
    else .error (.statusError response.status response.text)

/-- Endpoint method `Slurm::get_nodes` (lib.rs lines 168-181). -/
def Slurm.get_nodes (c : Slurm) (response : HttpResponse) :
    Except ClientError NodesResponse :=
  match Slurm.request c .GET "nodes" .null none with
  | .error e => .error (.requestBuild e)
  | .ok _ =>
    if response.status = 200 then
      match response.jsonBody with
      | .error e => .error (.decodeError e)
      | .ok j =>
        match NodesResponse.fromJson j with
        | .error e => .error (.decodeError e)
        | .ok r => .ok r
    else .error (.statusError response.status response.text)

/-- Endpoint method `Slurm::get_node` (lib.rs lines 185-198):
interpolates the node name into the path. -/
def Slurm.get_node (c : Slurm) (node : String) (response : HttpResponse) :
    Except ClientError NodesResponse :=
  match Slurm.request c .GET ("node/" ++ node) .null none with
  | .error e => .error (.requestBuild e)
  | .ok _ =>
    if response.status = 200 then
      match response.jsonBody with
      | .error e => .error (.decodeError e)
      | .ok j =>
        match NodesResponse.fromJson j with
        | .error e => .error (.decodeError e)
        | .ok r => .ok r
    else .error (.statusError response.status response.text)

/-- Endpoint method `Slurm::get_diag` (lib.rs lines 202-215). -/
def Slurm.get_diag (c : Slurm) (response : HttpResponse) :
    Except ClientError Diag :=
  match Slurm.request c .GET "diag" .null none with
  | .error e => .error (.requestBuild e)
  | .ok _ =>
    if response.status = 200 then
      match response.jsonBody with
      | .error e => .error (.decodeError e)
      | .ok j =>
        match Diag.fromJson j with
        | .error e => .error (.decodeError e)
        | .ok r => .ok r
    else .error (.statusError response.status response.text)

/-- Endpoint method `Slurm::get_reservations` (lib.rs lines 219-232). -/
def Slurm.get_reservations (c : Slurm) (response : HttpResponse) :
    Except ClientError ReservationsResponse :=
  match Slurm.request c .GET "reservations" .null none with
  | .error e => .error (.requestBuild e)
  | .ok _ =>
    if response.status = 200 then
      match response.jsonBody with
      | .error e => .error (.decodeError e)
      | .ok j =>
        match ReservationsResponse.fromJson j with
        | .error e => .error (.decodeError e)
        | .ok r => .ok r
    else .error (.statusError response.status response.text)

/-- Endpoint method `Slurm::get_reservation` (lib.rs lines 236-249):
interpolates the reservation name into the path. -/
def Slurm.get_reservation (c : Slurm) (reservation : String)
    (response : HttpResponse) : Except ClientError ReservationsResponse :=
  match Slurm.request c .GET ("reservation/" ++ reservation) .null none with
  | .error e => .error (.requestBuild e)
  | .ok _ =>
    if response.status = 200 then
      match response.jsonBody with
      | .error e => .error (.decodeError e)
      | .ok j =>
        match ReservationsResponse.fromJson j with
        | .error e => .error (.decodeError e)
        | .ok r => .ok r
    else .error (.statusError response.status response.text)

/-- Evaluation of the user header name: `from_bytes` on the lower-cased
constant always succeeds. -/
lemma hnUser_eval : headerNameFromBytes (strToLower SLURM_USER) = .ok "x-slurm-user-name" := by
  rfl

/-- Evaluation of the token header name. -/
lemma hnToken_eval : headerNameFromBytes (strToLower SLURM_TOKEN) = .ok "x-slurm-user-token" := by
  rfl

/-- Characterization of `Slurm.request` when both credentials are valid
header values. -/
lemma Slurm.request_ok (c : Slurm) (m : Method) (p : String) (b : Json)
    (q : Option (List (String × String)))
    (hu : c.user.data.all isValidHeaderValueChar = true)
    (ht : c.token.data.all isValidHeaderValueChar = true) :
    Slurm.request c m p b q = .ok
      { method := m,
        url := { scheme := c.endpoint.scheme, host := c.endpoint.host,
                 segments := c.endpoint.segments.dropLast
                   ++ splitOnChar ("slurm/" ++ SLURM_API_VERSION ++ "/" ++ p) '/',
                 queryParams := match q with | none => [] | some qq => qq },
        headers := [("x-slurm-user-name", c.user),
                    ("x-slurm-user-token", c.token),
                    ("content-type", "application/json")],
        body := if m != Method.GET && m != Method.DELETE then some b else none } := by
  simp only [Slurm.request, hnUser_eval, hnToken_eval, headerValueFromStr, hu, ht,
    if_true, Url.join, bind, Except.bind, pure, Except.pure]
  cases q <;> rfl

/-- `Slurm.request` fails with an invalid-header-value error when the
user contains a character invalid in a header value. -/
lemma Slurm.request_err_user (c : Slurm) (m : Method) (p : String) (b : Json)
    (q : Option (List (String × String)))
    (hu : c.user.data.all isValidHeaderValueChar = false) :
    Slurm.request c m p b q = .error .invalidHeaderValue := by
  simp only [Slurm.request, hnUser_eval, headerValueFromStr, hu,
    Bool.false_eq_true, if_false, bind, Except.bind]

/-- `Slurm.request` fails with an invalid-header-value error when the
user is valid but the token contains an invalid character. -/
lemma Slurm.request_err_token (c : Slurm) (m : Method) (p : String) (b : Json)
    (q : Option (List (String × String)))
    (hu : c.user.data.all isValidHeaderValueChar = true)
    (ht : c.token.data.all isValidHeaderValueChar = false) :
    Slurm.request c m p b q = .error .invalidHeaderValue := by
  simp only [Slurm.request, hnUser_eval, hnToken_eval, headerValueFromStr, hu, ht,
    Bool.false_eq_true, if_true, if_false, bind, Except.bind]

/-- Claim C10: the two internal request builders are extensionally
equal: for clients holding identical `(user, token, endpoint)` fields
and identical `(method, path, body, query)` arguments they produce
identical requests — in particular `SlurmDB::request` joins its path
under the same `slurm/v0.0.38/` namespace prefix as `Slurm::request`. -/
theorem c10_request_builders_extensionally_equal :
    ∀ (user token : String) (endpoint : Url) (m : Method) (p : String)
      (b : Json) (q : Option (List (String × String))),
      Slurm.request { user := user, token := token, endpoint := endpoint } m p b q
        = SlurmDB.request { user := user, token := token, endpoint := endpoint } m p b q := by
  intro user token endpoint m p b q
  rfl

/-- Prefix test on the underlying character lists, the byte-wise
"begins with" of the claims. -/
def strStartsWith (s pre : String) : Bool := pre.data.isPrefixOf s.data

/-- Concrete client used to evaluate the theorems on explicit inputs:
endpoint `http://localhost:6820/` with ordinary credentials. -/
def cW : Slurm :=
  { user := "rest_user", token := "secret-token",
    endpoint := { scheme := "http", host := "localhost:6820",
                  segments := [""], queryParams := [] } }

/-- Value of `Slurm.request cW .GET "ping" .null none`. -/
def reqPingW : Request :=
  { method := .GET,
    url := { scheme := "http", host := "localhost:6820",
             segments := ["slurm", "v0.0.38", "ping"], queryParams := [] },
    headers := [("x-slurm-user-name", "rest_user"),
                ("x-slurm-user-token", "secret-token"),
                ("content-type", "application/json")],
    body := none }

/-- Claim C1 (code-bug evaluation): at a concrete `SlurmDB` client with
endpoint `http://localhost:6820/`, the request built for the `ping` path
has URL `http://localhost:6820/slurm/v0.0.38/ping` — the `slurm`
namespace, not `slurmdb` as the claim requires — while the `Slurm`
client's request does begin with `{endpoint}slurm/v0.0.38/`. -/
theorem c1_slurmdb_request_uses_slurm_namespace :
    ∃ r : Request,
      SlurmDB.request
        { user := "rest_user", token := "secret-token",
          endpoint := { scheme := "http", host := "localhost:6820",
                        segments := [""], queryParams := [] } }
        .GET "ping" .null none = .ok r
      ∧ r.url.toString = "http://localhost:6820/slurm/v0.0.38/ping"
      ∧ strStartsWith r.url.toString "http://localhost:6820/slurmdb/" = false
      ∧ strStartsWith r.url.toString "http://localhost:6820/slurm/v0.0.38/" = true
      ∧ Slurm.request cW .GET "ping" .null none = .ok reqPingW
      ∧ strStartsWith reqPingW.url.toString "http://localhost:6820/slurm/v0.0.38/" = true := by
  refine ⟨_, rfl, ?_, ?_, ?_, rfl, ?_⟩ <;> rfl

/-- Claim C7: for each of the three required environment variables, if
it is the first one found unset then construction from the environment
fails (before anything else happens) with the `expect` message naming
that variable, for both `Slurm::new_from_env` and
`SlurmDB::new_from_env`; when all three are set, construction proceeds
with the read triple. -/
theorem c7_new_from_env_requires_all_vars :
    ∀ env : String → Option String,
      (env "X_SLURM_ENDPOINT" = none →
        Slurm.new_from_env env
            = .error "env variable \x27X_SLURM_ENDPOINT\x27 should be set"
          ∧ SlurmDB.new_from_env env
            = .error "env variable \x27X_SLURM_ENDPOINT\x27 should be set")
      ∧ (∀ e, env "X_SLURM_ENDPOINT" = some e → env "X_SLURM_USER_NAME" = none →
        Slurm.new_from_env env
            = .error "env variable \x27X_SLURM_USER_NAME\x27 should be set"
          ∧ SlurmDB.new_from_env env
            = .error "env variable \x27X_SLURM_USER_NAME\x27 should be set")
      ∧ (∀ e u, env "X_SLURM_ENDPOINT" = some e → env "X_SLURM_USER_NAME" = some u →
          env "X_SLURM_USER_TOKEN" = none →
        Slurm.new_from_env env
            = .error "env variable \x27X_SLURM_USER_TOKEN\x27 should be set"
          ∧ SlurmDB.new_from_env env
            = .error "env variable \x27X_SLURM_USER_TOKEN\x27 should be set")
      ∧ (∀ e u t, env "X_SLURM_ENDPOINT" = some e → env "X_SLURM_USER_NAME" = some u →
          env "X_SLURM_USER_TOKEN" = some t →
        Slurm.new_from_env env = .ok (u, t, e)
          ∧ SlurmDB.new_from_env env = .ok (u, t, e)) := by
  intro env
  refine ⟨fun h => ?_, fun e he hu => ?_, fun e u he hu ht => ?_,
          fun e u t he hu ht => ?_⟩ <;>
    simp [Slurm.new_from_env, SlurmDB.new_from_env, *]

/-- Witness for C7: an empty environment fails naming the endpoint
variable; a fully-populated environment constructs the triple. -/
theorem c7_new_from_env_requires_all_vars_witness :
    Slurm.new_from_env (fun _ => none)
        = .error "env variable \x27X_SLURM_ENDPOINT\x27 should be set"
      ∧ Slurm.new_from_env (fun v => some v)
        = .ok ("X_SLURM_USER_NAME", "X_SLURM_USER_TOKEN", "X_SLURM_ENDPOINT") :=
  ⟨((c7_new_from_env_requires_all_vars (fun _ => none)).1 rfl).1,
   ((c7_new_from_env_requires_all_vars (fun v => some v)).2.2.2 _ _ _ rfl rfl rfl).1⟩

/-- Claim C4: for every method, path, body and query supplied to the
request builder, a successfully built request carries no body when the
method is GET or DELETE (even though a body value was supplied), and
carries the JSON serialization of the supplied body for every other
method. -/
theorem c4_body_only_for_non_get_delete :
    ∀ (c : Slurm) (m : Method) (p : String) (b : Json)
      (q : Option (List (String × String))) (r : Request),
      Slurm.request c m p b q = .ok r →
      ((m = .GET ∨ m = .DELETE) → r.body = none)
      ∧ (m ≠ .GET → m ≠ .DELETE → r.body = some b) := by
  intro c m p b q r h
  by_cases hu : c.user.data.all isValidHeaderValueChar = true
  · by_cases ht : c.token.data.all isValidHeaderValueChar = true
    · rw [Slurm.request_ok c m p b q hu ht] at h
      injection h with h
      subst h
      constructor
      · rintro (rfl | rfl) <;> rfl
      · intro hg hd
        cases m <;> simp_all
    · rw [Slurm.request_err_token c m p b q hu (by simpa using ht)] at h
      exact absurd h (by simp)
  · rw [Slurm.request_err_user c m p b q (by simpa using hu)] at h
    exact absurd h (by simp)

/-- Witness for C4: the concrete GET `ping` request carries no body, and
the same arguments with POST carry the serialized body. -/
theorem c4_body_only_for_non_get_delete_witness :
    reqPingW.body = none
      ∧ ({ reqPingW with method := .POST, body := some Json.null } : Request).body
          = some Json.null :=
  ⟨(c4_body_only_for_non_get_delete cW .GET "ping" .null none reqPingW rfl).1
      (Or.inl rfl),
   (c4_body_only_for_non_get_delete cW .POST "ping" .null none
      { reqPingW with method := .POST, body := some Json.null } rfl).2
      (by simp) (by simp)⟩

/-- Claim C5: every successfully built request carries exactly the
headers `x-slurm-user-name` (the client's user), `x-slurm-user-token`
(the client's token) and `content-type: application/json`, with
lower-cased names; and when the user or the token contains a character
invalid in a header value the builder returns a construction error
rather than panicking. -/
theorem c5_headers_and_invalid_values :
    ∀ (c : Slurm) (m : Method) (p : String) (b : Json)
      (q : Option (List (String × String))),
      (c.user.data.all isValidHeaderValueChar = true →
        c.token.data.all isValidHeaderValueChar = true →
        ∃ r, Slurm.request c m p b q = .ok r
          ∧ r.headers = [("x-slurm-user-name", c.user),
                         ("x-slurm-user-token", c.token),
                         ("content-type", "application/json")])
      ∧ (c.user.data.all isValidHeaderValueChar = false
          ∨ c.token.data.all isValidHeaderValueChar = false →
        Slurm.request c m p b q = .error .invalidHeaderValue) := by
  intro c m p b q
  constructor
  · intro hu ht
    exact ⟨_, Slurm.request_ok c m p b q hu ht, rfl⟩
  · rintro (hu | ht)
    · exact Slurm.request_err_user c m p b q hu
    · by_cases hu : c.user.data.all isValidHeaderValueChar = true
      · exact Slurm.request_err_token c m p b q hu ht
      · exact Slurm.request_err_user c m p b q (by simpa using hu)

/-- Witness for C5: the concrete client builds the expected header
list, and a client whose token contains a newline gets a construction
error. -/
theorem c5_headers_and_invalid_values_witness :
    (∃ r, Slurm.request cW .GET "ping" .null none = .ok r
      ∧ r.headers = [("x-slurm-user-name", "rest_user"),
                     ("x-slurm-user-token", "secret-token"),
                     ("content-type", "application/json")])
      ∧ Slurm.request { cW with token := "bad\ntoken" } .GET "ping" .null none
          = .error .invalidHeaderValue :=
  ⟨(c5_headers_and_invalid_values cW .GET "ping" .null none).1 rfl rfl,
   (c5_headers_and_invalid_values { cW with token := "bad\ntoken" }
      .GET "ping" .null none).2 (Or.inr (by decide))⟩

/-- Claim C6: request building is deterministic: two clients holding
equal user, token and endpoint fields given the same method, path, body
and query build requests with byte-identical URLs and identical header
sets. -/
theorem c6_request_building_deterministic :
    ∀ (c1 c2 : Slurm) (m : Method) (p : String) (b : Json)
      (q : Option (List (String × String))) (r1 r2 : Request),
      c1.user = c2.user → c1.token = c2.token → c1.endpoint = c2.endpoint →
      Slurm.request c1 m p b q = .ok r1 → Slurm.request c2 m p b q = .ok r2 →
      r1.url.toString = r2.url.toString ∧ r1.headers = r2.headers := by
  intro c1 c2 m p b q r1 r2 hu ht he h1 h2
  obtain ⟨u1, t1, e1⟩ := c1
  obtain ⟨u2, t2, e2⟩ := c2
  simp only at hu ht he
  subst hu ht he
  rw [h1] at h2
  injection h2 with h2
  subst h2
  exact ⟨rfl, rfl⟩

/-- Witness for C6: two invocations of the builder on the concrete
client produce a request with equal URL string and header list. -/
theorem c6_request_building_deterministic_witness :
    reqPingW.url.toString = reqPingW.url.toString
      ∧ reqPingW.headers = reqPingW.headers :=
  c6_request_building_deterministic cW cW .GET "ping" .null none
    reqPingW reqPingW rfl rfl rfl rfl rfl

/-- Claim C3: for every endpoint method and every response whose status
is not 200, the method returns the error carrying the status code and
the raw body text and never consults the JSON body; on status 200 every
method behaves as `handle200`: it decodes the body into the endpoint's
typed response and returns a parse or deserialization failure as an
error rather than a defaulted value. -/
theorem c3_status_check_before_decode :
    ∀ (c : Slurm) (resp : HttpResponse) (nm : String),
      c.user.data.all isValidHeaderValueChar = true →
      c.token.data.all isValidHeaderValueChar = true →
      (resp.status ≠ 200 →
        Slurm.ping c resp = .error (.statusError resp.status resp.text)
        ∧ Slurm.get_partitions c resp = .error (.statusError resp.status resp.text)
        ∧ Slurm.get_partition c nm resp = .error (.statusError resp.status resp.text)
        ∧ Slurm.get_nodes c resp = .error (.statusError resp.status resp.text)
        ∧ Slurm.get_node c nm resp = .error (.statusError resp.status resp.text)
        ∧ Slurm.get_diag c resp = .error (.statusError resp.status resp.text)
        ∧ Slurm.get_reservations c resp = .error (.statusError resp.status resp.text)
        ∧ Slurm.get_reservation c nm resp = .error (.statusError resp.status resp.text))
      ∧ (resp.status = 200 →
        Slurm.ping c resp = handle200 Pings.fromJson resp
        ∧ Slurm.get_partitions c resp = handle200 PartitionsResponse.fromJson resp
        ∧ Slurm.get_partition c nm resp = handle200 PartitionsResponse.fromJson resp
        ∧ Slurm.get_nodes c resp = handle200 NodesResponse.fromJson resp
        ∧ Slurm.get_node c nm resp = handle200 NodesResponse.fromJson resp
        ∧ Slurm.get_diag c resp = handle200 Diag.fromJson resp
        ∧ Slurm.get_reservations c resp = handle200 ReservationsResponse.fromJson resp
        ∧ Slurm.get_reservation c nm resp = handle200 ReservationsResponse.fromJson resp) := by
  intro c resp nm hu ht
  have hreq := fun (m : Method) (p : String) (b : Json)
      (q : Option (List (String × String))) => Slurm.request_ok c m p b q hu ht
  constructor
  · intro hs
    refine ⟨?_, ?_, ?_, ?_, ?_, ?_, ?_, ?_⟩ <;>
      simp [Slurm.ping, Slurm.get_partitions, Slurm.get_partition,
        Slurm.get_nodes, Slurm.get_node, Slurm.get_diag,
        Slurm.get_reservations, Slurm.get_reservation, hreq, hs]
  · intro hs
    refine ⟨?_, ?_, ?_, ?_, ?_, ?_, ?_, ?_⟩ <;>
      simp [Slurm.ping, Slurm.get_partitions, Slurm.get_partition,
        Slurm.get_nodes, Slurm.get_node, Slurm.get_diag,
        Slurm.get_reservations, Slurm.get_reservation, hreq, hs, handle200] <;>
      (split <;> (first | rfl | (split <;> simp [*])))

/-- Witness for C3: a 503 response with body `overloaded` yields the
status error from `get_partitions`, and a 200 response with unparsable
body yields a decode error from `ping`. -/
theorem c3_status_check_before_decode_witness :
    Slurm.get_partitions cW
        { status := 503, text := "overloaded", jsonBody := .error "expected value" }
        = .error (.statusError 503 "overloaded")
      ∧ Slurm.ping cW
        { status := 200, text := "overloaded", jsonBody := .error "expected value" }
        = .error (.decodeError "expected value") :=
  ⟨((c3_status_check_before_decode cW
      { status := 503, text := "overloaded", jsonBody := .error "expected value" }
      "" rfl rfl).1 (by decide)).2.1,
   ((c3_status_check_before_decode cW
      { status := 200, text := "overloaded", jsonBody := .error "expected value" }
      "" rfl rfl).2 rfl).1⟩

/-- Claim C8: for every 200 response whose body parses and decodes
successfully, `ping` returns the decoded value itself — the `errors`
array inside it, of whatever length, is handed back as data and never
turned into a method failure. -/
theorem c8_upstream_errors_returned_as_data :
    ∀ (c : Slurm) (resp : HttpResponse) (j : Json) (p : Pings),
      c.user.data.all isValidHeaderValueChar = true →
      c.token.data.all isValidHeaderValueChar = true →
      resp.status = 200 → resp.jsonBody = .ok j → Pings.fromJson j = .ok p →
      Slurm.ping c resp = .ok p := by
  intro c resp j p hu ht hs hj hp
  have hreq := fun (m : Method) (p : String) (b : Json)
      (q : Option (List (String × String))) => Slurm.request_ok c m p b q hu ht
  simp [Slurm.ping, hreq, hs, hj, hp]

/-- Concrete 200 body whose `errors` array holds two entries. -/
def pingsBodyW : Json :=
  .obj [("meta", .obj []),
        ("errors", .arr [.obj [("error", .str "err one"), ("error_number", .num 5)],
                         .obj [("error", .str "err two"), ("error_number", .num 9)]]),
        ("pings", .arr [.obj [("hostname", .str "h1"), ("mode", .str "primary"),
                              ("status", .num 0)]])]

/-- Decoded form of `pingsBodyW`. -/
def pingsValW : Pings :=
  { meta := Meta.default,
    errors := [{ error := "err one", error_number := 5 },
               { error := "err two", error_number := 9 }],
    pings := [{ hostname := "h1", ping := "", mode := "primary", status := 0 }] }

/-- Witness for C8: a 200 response carrying two upstream errors decodes
to a success whose `errors` field holds both entries. -/
theorem c8_upstream_errors_returned_as_data_witness :
    Slurm.ping cW { status := 200, text := "", jsonBody := .ok pingsBodyW }
      = .ok pingsValW :=
  c8_upstream_errors_returned_as_data cW
    { status := 200, text := "", jsonBody := .ok pingsBodyW }
    pingsBodyW pingsValW rfl rfl rfl rfl (by decide)

/-- Node value with every field absent from the wire (all defaults). -/
def emptyNode : Node :=
  { architecture := none, burstbuffer_network_address := none, boards := none,
    boot_time := none, cores := none, cpu_binding := none, cpu_load := none,
    free_memory := none, cpus := none, features := none,
    active_features := none, gres := none, gres_drained := none,
    gres_used := none, mcs_label := none, name := none,
    next_state_after_reboot := none, next_state_after_reboot_flags := [],
    address := none, hostname := none, state := none, state_flags := [],
    operating_system := none, owner := none, partitions := [], port := none,
    real_memory := none, reason := none, reason_changed_at := none,
    reason_set_by_user := none, slurmd_start_time := none, sockets := none,
    threads := none, temporary_disk := none, weight := none, tres := none,
    tres_used := none, tres_weighted := none, slurmd_version := none,
    alloc_cpus := none, idle_cpus := none, alloc_memory := none }

/-- Partition value with every defaulted field at its default and the
required `allowed_accounts` set to the given string. -/
def partitionOnlyAccounts (acct : String) : Partition :=
  { flags := [], preemption_mode := [], allowed_allocation_nodes := "",
    allowed_accounts := acct, allowed_groups := "", allowed_qos := "",
    alternative := "", billing_weights := "", default_memory_per_cpu := none,
    default_time_limit := none, denied_accounts := "", denied_qos := "",
    preemption_grace_time := none, maximum_cpus_per_node := none,
    maximum_memory_per_node := none, maximum_nodes_per_job := none,
    max_time_limit := none, min_nodes_per_job := none, name := "",
    nodes := "", over_time_limit := none, priority_job_factor := none,
    priority_tier := none, qos := "", state := "", total_cpus := none,
    total_nodes := none, tres := "", maximum_memory_per_cpu := none,
    default_memory_per_node := none }

/-- Claim C2 (counterexample): decoding a `Partition` object with all
fields absent does not succeed — `allowed_accounts` has no
`#[serde(default)]` in the source, so its absence is a missing-field
error, contradicting the claim that no field absence is an error. -/
theorem c2_counterexample_partition_requires_allowed_accounts :
    Partition.fromJson (Json.obj []) = .error "missing field allowed_accounts" := by
  rfl

/-- Claim C2 (amended): decoding a JSON object with all fields absent
succeeds for every response type and nested entity type and yields the
default value for every field, with one exception forced by the source:
`Partition.allowed_accounts` must be present.  A `Partition` object
carrying only `allowed_accounts` decodes with defaults everywhere else —
in particular the two `Option` fields whose `#[serde(default)]` is
commented out (`maximum_nodes_per_job`, `priority_tier`) still default
to `None` when absent. -/
theorem c2_absent_fields_yield_defaults :
    Pings.fromJson (.obj []) = .ok { meta := Meta.default, errors := [], pings := [] }
    ∧ NodesResponse.fromJson (.obj [])
        = .ok { meta := Meta.default, errors := [], nodes := [] }
    ∧ PartitionsResponse.fromJson (.obj [])
        = .ok { meta := Meta.default, errors := [], partitions := [] }
    ∧ ReservationsResponse.fromJson (.obj [])
        = .ok { meta := Meta.default, errors := [], reservation := [] }
    ∧ Diag.fromJson (.obj [])
        = .ok { meta := Meta.default, errors := [], statistics := DiagStatistics.default }
    ∧ Ping.fromJson (.obj [])
        = .ok { hostname := "", ping := "", mode := "", status := 0 }
    ∧ Error.fromJson (.obj []) = .ok { error := "", error_number := 0 }
    ∧ Meta.fromJson (.obj []) = .ok Meta.default
    ∧ MetaPlugin.fromJson (.obj []) = .ok MetaPlugin.default
    ∧ MetaSlurm.fromJson (.obj []) = .ok MetaSlurm.default
    ∧ MetaSlurmVersion.fromJson (.obj []) = .ok MetaSlurmVersion.default
    ∧ Reservation.fromJson (.obj []) = .ok Reservation.default
    ∧ ReservationPurgeCompleted.fromJson (.obj [])
        = .ok ReservationPurgeCompleted.default
    ∧ DiagStatistics.fromJson (.obj []) = .ok DiagStatistics.default
    ∧ DiagRpcm.fromJson (.obj []) = .ok DiagRpcm.default
    ∧ DiagRpcu.fromJson (.obj []) = .ok DiagRpcu.default
    ∧ Node.fromJson (.obj []) = .ok emptyNode
    ∧ Partition.fromJson (.obj [("allowed_accounts", .str "acct")])
        = .ok (partitionOnlyAccounts "acct") :=
  ⟨rfl, rfl, rfl, rfl, rfl, rfl, rfl, rfl, rfl, rfl, rfl, rfl, rfl, rfl, rfl,
   rfl, rfl, rfl⟩

/-- Bind of a successful `Except` computation. -/
lemma except_bind_ok (a : α) (f : α → Except ε β) :
    (Except.ok a >>= f : Except ε β) = f a := rfl

/-- Round trip for an optional string field. -/
lemma rt_optStr (x : Option String) : decOpt decStr (encOpt encStr x) = .ok x := by
  cases x <;> rfl

/-- Round trip for an optional integer field. -/
lemma rt_optInt (x : Option Int) : decOpt decInt (encOpt encInt x) = .ok x := by
  cases x <;> rfl

/-- Round trip for a string-list field. -/
lemma rt_listStr (xs : List String) : decList decStr (encList encStr xs) = .ok xs := by
  induction xs with
  | nil => rfl
  | cons a as ih =>
    simp only [decList, encList, List.map_cons] at ih ⊢
    simp [decElems, decStr, encStr, ih, except_bind_ok]

/-- Round trip for the nested `ReservationPurgeCompleted` struct. -/
lemma rt_purge (r : ReservationPurgeCompleted) :
    ReservationPurgeCompleted.fromJson r.toJson = .ok r := by
  obtain ⟨time⟩ := r
  cases time <;> rfl

/-- Values of `Option<f64>` whose serde_json serialization is not
collapsed to `null`: absent or finite. -/
def serializableF64 : Option F64 → Bool
  | none => true
  | some (.finite _) => true
  | some _ => false

/-- Round trip for the optional `f64` field, available exactly when the
value is absent or finite. -/
lemma rt_optF64 (x : Option F64) (h : serializableF64 x = true) :
    decOpt decF64 (encOpt encF64 x) = .ok x := by
  cases x with
  | none => rfl
  | some v =>
    cases v <;> simp_all [serializableF64, decOpt, decF64, encOpt, encF64,
      Except.map]

/-- Round trip for `Partition`. -/
lemma rt_partition (p : Partition) : Partition.fromJson (Partition.toJson p) = .ok p := by
  cases p
  simp +decide [Partition.fromJson, Partition.toJson, fieldD, fieldReq, jGet,
    rt_optStr, rt_optInt, rt_listStr, decStr, encStr, except_bind_ok]

/-- Round trip for `Reservation`. -/
lemma rt_reservation (r : Reservation) :
    Reservation.fromJson (Reservation.toJson r) = .ok r := by
  cases r
  simp +decide [Reservation.fromJson, Reservation.toJson, fieldD, jGet,
    rt_optStr, rt_optInt, rt_listStr, rt_purge, decStr, encStr, except_bind_ok]

/-- Round trip for `Node` whenever the one `f64` field is absent or
finite. -/
lemma rt_node (n : Node) (h : serializableF64 n.tres_weighted = true) :
    Node.fromJson (Node.toJson n) = .ok n := by
  cases n
  simp only [] at h
  simp +decide [Node.fromJson, Node.toJson, fieldD, jGet, rt_optStr, rt_optInt,
    rt_listStr, rt_optF64 _ h, decStr, encStr, except_bind_ok]

/-- Node value equal to `emptyNode` except that the `f64` field holds
NaN. -/
def nodeNaNW : Node := { emptyNode with tres_weighted := some F64.nan }

/-- Node value equal to `emptyNode` except that the `f64` field holds a
finite value. -/
def nodeFiniteW : Node := { emptyNode with tres_weighted := some (F64.finite 1) }

/-- Claim C9 (counterexample): a `Node` whose `tres_weighted` is NaN is
not round-tripped — serde_json writes the non-finite `f64` as `null`, so
decoding the encoder's output yields `None` in that field, a value
different from the original. -/
theorem c9_counterexample_nan_not_roundtripped :
    Node.fromJson (Node.toJson nodeNaNW) = .ok emptyNode ∧ emptyNode ≠ nodeNaNW := by
  exact ⟨by decide, by decide⟩

/-- Claim C9 (amended): encoding then decoding is the identity for every
`Partition` and every `Reservation`, and for every `Node` whose
`tres_weighted` field is absent or finite (a non-finite `f64` serializes
to `null` and decodes back as `None`). -/
theorem c9_encode_decode_roundtrip :
    (∀ p : Partition, Partition.fromJson (Partition.toJson p) = .ok p)
    ∧ (∀ r : Reservation, Reservation.fromJson (Reservation.toJson r) = .ok r)
    ∧ (∀ n : Node, serializableF64 n.tres_weighted = true →
        Node.fromJson (Node.toJson n) = .ok n) :=
  ⟨rt_partition, rt_reservation, rt_node⟩

/-- Witness for C9: the round trip evaluated at a concrete `Partition`
and at a concrete `Node` with a finite `tres_weighted`. -/
theorem c9_encode_decode_roundtrip_witness :
    Partition.fromJson (Partition.toJson (partitionOnlyAccounts "acct"))
        = .ok (partitionOnlyAccounts "acct")
      ∧ Node.fromJson (Node.toJson nodeFiniteW) = .ok nodeFiniteW :=
  ⟨c9_encode_decode_roundtrip.1 (partitionOnlyAccounts "acct"),
   c9_encode_decode_roundtrip.2.2 nodeFiniteW (by decide)⟩
